import Mathlib

/-!
Verification of the frame-delivery and client-notification model of the
webcam server scripts (`webcam_server.py`, snapshot-notify mode, and
`webcam_server-2.py`, continuous M-JPEG stream mode).

The embedding is a shallow one: the I/O loops are modelled as pure
functions from the sequence of outcomes of their external calls (frame
reads, JPEG encodes, websocket sends, device opens) to the sequence of
observable effects they perform (bytes and headers written to the HTTP
response, file writes, websocket sends, sockets bound).
-/

/-- Byte sequence of a literal string written to the wire (models Python
byte literals such as the boundary marker written with `wfile.write`). -/
def strBytes (s : String) : List Nat :=
  s.toList.map Char.toNat

/-- One observable item written on the HTTP response, in wire order.
`send_response` produces a `statusLine`; `send_header` produces a
`header`; `end_headers` produces `endHeaders` (the blank CRLF line that
also flushes the buffered headers); a direct `wfile.write` produces
`bytes`. -/
inductive Chunk where
  | statusLine (code : Nat)
  | header (name value : String)
  | endHeaders
  | bytes (data : List Nat)
deriving DecidableEq

/-- Outcome of one iteration of the stream loop's external calls in
`CustomRequestHandler.stream_video_feed`: the `cap.read()` call fails
(`readFail`), or the read succeeds but `cv2.imencode` fails
(`encodeFail`), or both succeed yielding the encoded JPEG bytes
(`frame payload`). -/
inductive CaptureEvent where
  | readFail
  | encodeFail
  | frame (payload : List Nat)
deriving DecidableEq

/-- Wire output of one successful iteration of the loop body of
`stream_video_feed` (source lines 48-55): the boundary byte literal, the
two per-part headers (`Content-Length` is `str(len(buffer))`, and
`buffer.tobytes()` has exactly `len(buffer)` bytes, so the header value
is the payload length), the blank line from `end_headers`, the payload
bytes, and the trailing CRLF literal. -/
def framePart (payload : List Nat) : List Chunk :=
  [Chunk.bytes (strBytes "--frameboundary\r\n"),
   Chunk.header "Content-Type" "image/jpeg",
   Chunk.header "Content-Length" (toString payload.length),
   Chunk.endHeaders,
   Chunk.bytes payload,
   Chunk.bytes (strBytes "\r\n")]

/-- The `while True` loop of `stream_video_feed` (source lines 37-57),
as a function of the sequence of read/encode outcomes it encounters: a
failed read breaks out of the loop, a failed encode is `continue`, and a
successful frame emits one multipart part. -/
def streamLoop : List CaptureEvent → List Chunk
  | [] => []
  | CaptureEvent.readFail :: _ => []
  | CaptureEvent.encodeFail :: es => streamLoop es
  | CaptureEvent.frame p :: es => framePart p ++ streamLoop es

/-- The response prologue of `stream_video_feed` (source lines 26-32):
`send_response(200)` (which also buffers the library's `Server` and
`Date` headers, here taken as parameters), the CORS header, the
multipart content type (the source spells the name `Content-type`; HTTP
header names are case-insensitive), then `end_headers`. -/
def responseHead (serverStr dateStr : String) : List Chunk :=
  [Chunk.statusLine 200,
   Chunk.header "Server" serverStr,
   Chunk.header "Date" dateStr,
   Chunk.header "Access-Control-Allow-Origin" "*",
   Chunk.header "Content-type" "multipart/x-mixed-replace; boundary=--frameboundary",
   Chunk.endHeaders]

/-- Full wire output of `CustomRequestHandler.stream_video_feed` for one
`GET /video_feed` connection, given the sequence of read/encode
outcomes. -/
def stream_video_feed (serverStr dateStr : String)
    (es : List CaptureEvent) : List Chunk :=
  responseHead serverStr dateStr ++ streamLoop es

/-- Multipart part format as the specification prescribes it: boundary
line, `Content-Type: image/jpeg` header, `Content-Length` header whose
value is the exact byte length of the payload, the payload bytes, and a
trailing CRLF. Written from the spec's words, to be compared with the
source-derived `framePart`. -/
def specMultipartPart (payload : List Nat) : List Chunk :=
  [Chunk.bytes (strBytes "--frameboundary\r\n"),
   Chunk.header "Content-Type" "image/jpeg",
   Chunk.header "Content-Length" (toString payload.length),
   Chunk.endHeaders,
   Chunk.bytes payload,
   Chunk.bytes (strBytes "\r\n")]

/-- The payloads of the successfully encoded frames among a run of loop
iterations. -/
def successPayloads (es : List CaptureEvent) : List (List Nat) :=
  es.filterMap fun e =>
    match e with
    | CaptureEvent.frame p => some p
    | _ => none

theorem streamLoop_map_frame (ps : List (List Nat)) :
    streamLoop (ps.map CaptureEvent.frame) = (ps.map specMultipartPart).flatten := by
  induction ps with
  | nil => rfl
  | cons p ps ih => simp [streamLoop, framePart, specMultipartPart, ih]

/-- Claim C1: a `GET /video_feed` connection whose N frame reads and
encodes all succeed emits a 200 status, the CORS header
`Access-Control-Allow-Origin: *` and the multipart content-type header,
followed by exactly N well-formed multipart parts, each consisting of
the boundary line, a `Content-Type: image/jpeg` header, a
`Content-Length` header equal to the payload's exact byte length, the
payload, and a trailing CRLF. -/
theorem c1_stream_response_wellformed (s d : String) (ps : List (List Nat)) :
    stream_video_feed s d (ps.map CaptureEvent.frame)
      = responseHead s d ++ (ps.map specMultipartPart).flatten
    ∧ (stream_video_feed s d (ps.map CaptureEvent.frame)).head?
      = some (Chunk.statusLine 200)
    ∧ Chunk.header "Access-Control-Allow-Origin" "*" ∈ responseHead s d
    ∧ Chunk.header "Content-type" "multipart/x-mixed-replace; boundary=--frameboundary"
      ∈ responseHead s d
    ∧ (ps.map specMultipartPart).length = ps.length := by
  refine ⟨?_, ?_, ?_, ?_, ?_⟩
  · simp [stream_video_feed, streamLoop_map_frame]
  · simp [stream_video_feed, responseHead]
  · simp [responseHead]
  · simp [responseHead]
  · simp

/-- Claim C2: a run of the stream loop whose reads all succeed but whose
encodes fail K times among N iterations skips each failed encode via
`continue`, keeps going to the next read, and produces exactly N−K
multipart parts with no error output and no abort of the stream. -/
theorem c2_encode_failures_skipped (es : List CaptureEvent)
    (h : CaptureEvent.readFail ∉ es) :
    streamLoop es = ((successPayloads es).map specMultipartPart).flatten
    ∧ (successPayloads es).length + es.count CaptureEvent.encodeFail = es.length
    ∧ (successPayloads es).length = es.length - es.count CaptureEvent.encodeFail := by
  have main : streamLoop es = ((successPayloads es).map specMultipartPart).flatten
      ∧ (successPayloads es).length + es.count CaptureEvent.encodeFail = es.length := by
    induction es with
    | nil => exact ⟨rfl, rfl⟩
    | cons e es ih =>
      have hne : e ≠ CaptureEvent.readFail := by
        intro he; exact h (he ▸ List.mem_cons_self e es)
      have hes : CaptureEvent.readFail ∉ es := fun hm => h (List.mem_cons_of_mem e hm)
      obtain ⟨ih1, ih2⟩ := ih hes
      cases e with
      | readFail => exact absurd rfl hne
      | encodeFail =>
        refine ⟨?_, ?_⟩
        · simpa [streamLoop, successPayloads] using ih1
        · simp only [successPayloads, List.filterMap_cons] at ih2 ⊢
          simp [List.count_cons, ih2.symm]
          omega
      | frame p =>
        refine ⟨?_, ?_⟩
        · simp [streamLoop, successPayloads, framePart, specMultipartPart] at ih1 ⊢
          exact ih1
        · simp only [successPayloads, List.filterMap_cons] at ih2 ⊢
          simp [List.count_cons, ih2.symm]
          omega
  exact ⟨main.1, main.2, by omega⟩

/-- Concrete loop run used to instantiate `c2_encode_failures_skipped`:
two good frames around one failed encode. -/
def evTrace : List CaptureEvent :=
  [CaptureEvent.frame [104, 105], CaptureEvent.encodeFail, CaptureEvent.frame []]

theorem c2_encode_failures_skipped_witness :
    CaptureEvent.readFail ∉ evTrace
    ∧ (successPayloads evTrace).length + evTrace.count CaptureEvent.encodeFail
        = evTrace.length :=
  ⟨by decide, (c2_encode_failures_skipped evTrace (by decide)).2.1⟩

/-- Handle returned by `cv2.VideoCapture(i)`: it records the requested
device index and whether `isOpened()` reports success. The environment
is abstracted as an oracle `opens : Nat → Bool` saying which device
indices open successfully. -/
structure VideoCapture where
  index : Nat
  opened : Bool
deriving DecidableEq

/-- Model of the constructor call `cv2.VideoCapture(i)`. -/
def videoCaptureOpen (opens : Nat → Bool) (i : Nat) : VideoCapture :=
  ⟨i, opens i⟩

/-- Device-open sequence shared by `webcam_loop` (webcam_server.py lines
62-70) and `run_server` (webcam_server-2.py lines 84-90):
`cap = cv2.VideoCapture(0)`; if not opened, `cap = cv2.VideoCapture(1)`;
if still not opened, log the error and return. The result is the handle
(`none` models the DeviceUnavailable early return) paired with the list
of indices on which an open was attempted, in order. -/
def openWebcam (opens : Nat → Bool) : Option VideoCapture × List Nat :=
  let cap := videoCaptureOpen opens 0
  let tried := if cap.opened then (cap, [0]) else (videoCaptureOpen opens 1, [0, 1])
  if tried.1.opened then (some tried.1, tried.2) else (none, tried.2)

/-- Claim C3: device open tries candidate indices [0, 1] in order: if
index 0 opens, the handle is bound to index 0 and index 1 is never
attempted; if index 0 fails and index 1 opens, the handle is bound to
index 1; at most two opens are attempted; and if neither opens, the
result is the DeviceUnavailable failure (`none`), after which the
capture/server logic returns instead of proceeding. -/
theorem c3_device_open_fallback (opens : Nat → Bool) :
    (opens 0 = true → openWebcam opens = (some ⟨0, true⟩, [0]))
    ∧ (opens 0 = false → opens 1 = true →
        openWebcam opens = (some ⟨1, true⟩, [0, 1]))
    ∧ (openWebcam opens).2.length ≤ 2
    ∧ (opens 0 = false → opens 1 = false →
        openWebcam opens = (none, [0, 1])) := by
  refine ⟨?_, ?_, ?_, ?_⟩
  · intro h0; simp [openWebcam, videoCaptureOpen, h0]
  · intro h0 h1; simp [openWebcam, videoCaptureOpen, h0, h1]
  · by_cases h0 : opens 0 <;> by_cases h1 : opens 1 <;>
      simp [openWebcam, videoCaptureOpen, h0, h1]
  · intro h0 h1; simp [openWebcam, videoCaptureOpen, h0, h1]

/-- Oracle used to instantiate the fallback theorem: index 0 fails,
index 1 opens. -/
def opensOnlyOne : Nat → Bool :=
  fun i => decide (i = 1)

theorem c3_device_open_fallback_witness :
    opensOnlyOne 0 = false ∧ opensOnlyOne 1 = true
    ∧ openWebcam opensOnlyOne = (some ⟨1, true⟩, [0, 1]) :=
  ⟨rfl, rfl, (c3_device_open_fallback opensOnlyOne).2.1 rfl rfl⟩

/-- Observable startup action of either server process. -/
inductive StartEvent where
  | bindServer (kind : String) (port : Nat)
  | tryOpen (idx : Nat)
  | deviceOpened (idx : Nat)
  | logError (msg : String)
  | ret
  | enterLoop
deriving DecidableEq

/-- Startup actions of `webcam_loop` (webcam_server.py lines 60-92): the
device-open attempts, then either the opened device and the capture loop,
or the logged error followed by `return`. -/
def webcam_loop_trace (opens : Nat → Bool) : List StartEvent :=
  match openWebcam opens with
  | (some cap, attempts) =>
      attempts.map StartEvent.tryOpen
        ++ [StartEvent.deviceOpened cap.index, StartEvent.enterLoop]
  | (none, attempts) =>
      attempts.map StartEvent.tryOpen
        ++ [StartEvent.logError "Error: Could not open webcam", StartEvent.ret]

/-- Startup actions of `main` in webcam_server.py (lines 137-148): the
HTTP file-server thread is started (binding port 8000) first, then the
websocket server is bound on port 8765, and only then is `webcam_loop`
awaited — so both sockets are bound before any device-open attempt. -/
def snapshot_main_trace (opens : Nat → Bool) : List StartEvent :=
  StartEvent.bindServer "http" 8000
    :: StartEvent.bindServer "ws" 8765
    :: webcam_loop_trace opens

/-- Startup actions of `run_server` in webcam_server-2.py (lines 82-120):
the device is opened first; on failure the error is logged and the
function returns before creating any server. On success the working
directory change may fail (`displayExists = false`), which releases the
capture and returns; otherwise the threaded HTTP server is bound on port
8000 and served. -/
def run_server_trace (opens : Nat → Bool) (displayExists : Bool) : List StartEvent :=
  match openWebcam opens with
  | (none, attempts) =>
      attempts.map StartEvent.tryOpen
        ++ [StartEvent.logError "Error: Could not open webcam", StartEvent.ret]
  | (some cap, attempts) =>
      attempts.map StartEvent.tryOpen ++ [StartEvent.deviceOpened cap.index]
        ++ (if displayExists then
              [StartEvent.bindServer "http" 8000, StartEvent.enterLoop]
            else
              [StartEvent.logError "Error: display directory not found", StartEvent.ret])

/-- Checks that no `bindServer` event occurs while the device is still
unopened; the flag carries whether a `deviceOpened` event has been seen. -/
def noBindBeforeOpen : Bool → List StartEvent → Bool
  | _, [] => true
  | opened, e :: es =>
      match e with
      | StartEvent.bindServer _ _ => opened && noBindBeforeOpen opened es
      | StartEvent.deviceOpened _ => noBindBeforeOpen true es
      | _ => noBindBeforeOpen opened es

/-- Claim C9 fails on webcam_server.py: with no device index opening, the
snapshot-mode `main` binds the HTTP server (and then the websocket
server) before the first device-open attempt, so a listening socket is
bound while the device is unopened, contradicting the claim that the
process exits before binding any server. -/
theorem c9_counterexample_bind_before_open :
    noBindBeforeOpen false (snapshot_main_trace (fun _ => false)) = false
    ∧ (snapshot_main_trace (fun _ => false)).head?
      = some (StartEvent.bindServer "http" 8000)
    ∧ snapshot_main_trace (fun _ => false)
      = [StartEvent.bindServer "http" 8000, StartEvent.bindServer "ws" 8765,
         StartEvent.tryOpen 0, StartEvent.tryOpen 1,
         StartEvent.logError "Error: Could not open webcam", StartEvent.ret] := by
  refine ⟨rfl, rfl, rfl⟩

/-- Claim C9 as amended: when no device index opens, both programs log
the error and return without entering their serving loop; the stream
server (webcam_server-2.py) binds no listening socket at any point with
the device unopened; but the snapshot server (webcam_server.py) binds
its HTTP and websocket sockets before the device open is attempted, and
only then fails. -/
theorem c9_amended_startup_order (opens : Nat → Bool) (displayExists : Bool)
    (h0 : opens 0 = false) (h1 : opens 1 = false) :
    run_server_trace opens displayExists
      = [StartEvent.tryOpen 0, StartEvent.tryOpen 1,
         StartEvent.logError "Error: Could not open webcam", StartEvent.ret]
    ∧ noBindBeforeOpen false (run_server_trace opens displayExists) = true
    ∧ webcam_loop_trace opens
      = [StartEvent.tryOpen 0, StartEvent.tryOpen 1,
         StartEvent.logError "Error: Could not open webcam", StartEvent.ret]
    ∧ snapshot_main_trace opens
      = StartEvent.bindServer "http" 8000 :: StartEvent.bindServer "ws" 8765
          :: webcam_loop_trace opens := by
  have hopen : openWebcam opens = (none, [0, 1]) :=
    (c3_device_open_fallback opens).2.2.2 h0 h1
  refine ⟨?_, ?_, ?_, rfl⟩
  · simp [run_server_trace, hopen]
  · simp [run_server_trace, hopen, noBindBeforeOpen]
  · simp [webcam_loop_trace, hopen]

theorem c9_amended_startup_order_witness :
    (fun _ => false : Nat → Bool) 0 = false
    ∧ noBindBeforeOpen false (run_server_trace (fun _ => false) true) = true :=
  ⟨rfl, (c9_amended_startup_order (fun _ => false) true rfl rfl).2.1⟩

/-- Configuration constant `LATEST_IMAGE_FILENAME` of webcam_server.py
(line 13). -/
def LATEST_IMAGE_FILENAME : String :=
  "captured_latest.jpg"

/-- The dict built in `send_notification_to_clients` (webcam_server.py
lines 34-38) before serialization: field order and values as in the
source. -/
structure NotificationMessage where
  type : String
  filename : String
  timestamp : String
deriving DecidableEq

/-- Construction of the notification dict: the `type` field is the
literal `new_image_ready`, the `filename` field is
`LATEST_IMAGE_FILENAME`, and the `timestamp` field is the current
wall-clock ISO-8601 string (a parameter `now` of the model). -/
def mkNotification (now : String) : NotificationMessage :=
  ⟨"new_image_ready", LATEST_IMAGE_FILENAME, now⟩

/-- Serialization of the dict with `json.dumps` (default separators put
a space after each colon and comma; insertion order type, filename,
timestamp). -/
def serializeNotification (m : NotificationMessage) : String :=
  "\x7b\"type\": \"" ++ m.type
    ++ "\", \"filename\": \"" ++ m.filename
    ++ "\", \"timestamp\": \"" ++ m.timestamp ++ "\"\x7d"

/-- JSON shape the specification prescribes for a broadcast message:
an object with `type` set to `new_image_ready`, the notified filename,
and the ISO-8601 timestamp. Written from the spec's words, to be
compared with the source-derived serializer. -/
def specNotificationJson (name ts : String) : String :=
  "\x7b\"type\": \"new_image_ready\", \"filename\": \"" ++ name
    ++ "\", \"timestamp\": \"" ++ ts ++ "\"\x7d"

/-- Model of `send_notification_to_clients` (webcam_server.py lines
31-43). The set of connected clients is represented as a list of client
identifiers. If the set is empty the function does nothing; otherwise
the message is serialized once and one send of that same string is
started for every member. It returns the client set as left after the
call (the function never mutates it) and the list of send attempts
`(client, message)`. -/
def send_notification_to_clients (clients : List Nat) (now : String) :
    List Nat × List (Nat × String) :=
  if clients.isEmpty then
    (clients, [])
  else
    let message := serializeNotification (mkNotification now)
    (clients, clients.map fun c => (c, message))

/-- Result of `asyncio.gather(..., return_exceptions=True)` over the
send attempts: every send is attempted, a per-client failure (oracle
`fails`) is captured as a result rather than raised, and the gather
returns normally. The Boolean in each triple records whether that send
succeeded. -/
def gatherSendResults (sends : List (Nat × String)) (fails : Nat → Bool) :
    List (Nat × String × Bool) :=
  sends.map fun t => (t.1, t.2, !fails t.1)

/-- Effects performed by the snapshot-mode capture trigger. -/
inductive Eff where
  | writeFile (path : String) (data : List Nat)
  | wsSend (client : Nat) (msg : String)
deriving DecidableEq

theorem send_notification_eq (clients : List Nat) (now : String) :
    send_notification_to_clients clients now
      = (clients, clients.map fun c => (c, serializeNotification (mkNotification now))) := by
  by_cases h : clients.isEmpty
  · simp [send_notification_to_clients, h, List.isEmpty_iff.mp h]
  · simp [send_notification_to_clients, h]

/-- The `key == ord('s')` branch of `webcam_loop` (webcam_server.py
lines 110-118): first `cv2.imwrite(LATEST_IMAGE_FILENAME, frame)`
overwrites the snapshot file, then `send_notification_to_clients` is
awaited, producing the send attempts in order. -/
def capture_trigger (frame : List Nat) (clients : List Nat) (now : String) :
    List Eff :=
  Eff.writeFile LATEST_IMAGE_FILENAME frame
    :: (send_notification_to_clients clients now).2.map fun t => Eff.wsSend t.1 t.2

/-- Claim C4: on every capture trigger the current frame is written to
the fixed snapshot path first, and only then is the notification
broadcast; the message is serialized once, has the JSON shape the spec
prescribes (type `new_image_ready`, the filename, an ISO-8601
timestamp), and the identical serialized string is sent to every
currently subscribed client. -/
theorem c4_capture_write_then_broadcast (frame : List Nat)
    (clients : List Nat) (now : String) :
    capture_trigger frame clients now
      = Eff.writeFile LATEST_IMAGE_FILENAME frame
          :: clients.map (fun c => Eff.wsSend c (serializeNotification (mkNotification now)))
    ∧ serializeNotification (mkNotification now)
      = specNotificationJson LATEST_IMAGE_FILENAME now := by
  constructor
  · simp [capture_trigger, send_notification_eq]
  · rfl

/-- Claim C5: a broadcast over a client set of size K with any number of
per-client send failures catches each failure (the gather returns a
result for every attempted send and never raises), still attempts the
send to every member — so every non-failing client receives the message
— and leaves the client-set membership exactly as it was before. -/
theorem c5_broadcast_fault_tolerant (clients : List Nat) (fails : Nat → Bool)
    (now : String) :
    (send_notification_to_clients clients now).1 = clients
    ∧ (gatherSendResults (send_notification_to_clients clients now).2 fails).length
      = (send_notification_to_clients clients now).2.length
    ∧ (∀ c, c ∈ clients → fails c = false →
        (c, serializeNotification (mkNotification now), true)
          ∈ gatherSendResults (send_notification_to_clients clients now).2 fails)
    ∧ (∀ c, c ∈ clients →
        (c, serializeNotification (mkNotification now))
          ∈ (send_notification_to_clients clients now).2) := by
  refine ⟨?_, ?_, ?_, ?_⟩
  · simp [send_notification_eq]
  · simp [gatherSendResults]
  · intro c hc hf
    rw [send_notification_eq]
    refine List.mem_map.mpr ⟨(c, serializeNotification (mkNotification now)), ?_, ?_⟩
    · exact List.mem_map.mpr ⟨c, hc, rfl⟩
    · simp [gatherSendResults, hf]
  · intro c hc
    rw [send_notification_eq]
    exact List.mem_map.mpr ⟨c, hc, rfl⟩

theorem c5_broadcast_fault_tolerant_witness :
    (3, serializeNotification (mkNotification "t0"), true)
      ∈ gatherSendResults
          (send_notification_to_clients [3, 5] "t0").2
          (fun c => decide (c = 5)) :=
  (c5_broadcast_fault_tolerant [3, 5] (fun c => decide (c = 5)) "t0").2.2.1
    3 (by decide) rfl

/-- Claim C7: broadcasting with an empty client set is a no-op: the
guard `if connected_clients:` fails, so no message is constructed and no
send is attempted, and the function returns immediately. -/
theorem c7_broadcast_empty_noop (now : String) :
    send_notification_to_clients [] now = ([], []) := by
  rfl

/-- Claim C10: the filename carried by every broadcast notification and
the path the snapshot frame is written to are the same constant
`LATEST_IMAGE_FILENAME = "captured_latest.jpg"`: on every capture
trigger the first effect writes exactly the file the notification
names. -/
theorem c10_notified_filename_matches_saved_path (frame : List Nat)
    (clients : List Nat) (now : String) :
    (mkNotification now).filename = LATEST_IMAGE_FILENAME
    ∧ LATEST_IMAGE_FILENAME = "captured_latest.jpg"
    ∧ (capture_trigger frame clients now).head?
      = some (Eff.writeFile (mkNotification now).filename frame) := by
  exact ⟨rfl, rfl, rfl⟩

/-- Lifecycle of one websocket handler coroutine for a client, as
`handle_client` drives it: `fresh` before that connection object ever
connected, `active` while the handler is suspended in `wait_closed`,
`closed` once the `finally` block has run. -/
inductive HState where
  | fresh
  | active
  | closed
deriving DecidableEq

/-- External events of the websocket server: a new connection (which
runs the body of `handle_client` up to its `await wait_closed()`) and a
close signal for a connection (duplicate close signals for the same
connection are possible; `wait_closed` returns only on the first). -/
inductive WsEvent where
  | connect (c : Nat)
  | close (c : Nat)
deriving DecidableEq

/-- Python `set.add`: inserts the element unless already present. -/
def setAdd (l : List Nat) (c : Nat) : List Nat :=
  if c ∈ l then l else c :: l

/-- Python `set.remove`: removes the element if present, and raises
`KeyError` (modelled by `none`) if absent. -/
def setRemove (l : List Nat) (c : Nat) : Option (List Nat) :=
  if c ∈ l then some (l.erase c) else none

/-- State of the websocket server around `connected_clients`
(webcam_server.py line 17): the client set (a Python set of connection
objects, modelled as a list of identifiers), the lifecycle state of each
client's handler, how many times each client's removal has run, and
whether any `set.remove` call has raised. -/
structure WsServer where
  clients : List Nat
  hstate : Nat → HState
  removals : Nat → Nat
  errored : Bool

/-- Server state at startup: empty client set, no handler started. -/
def initWs : WsServer :=
  ⟨[], fun _ => HState.fresh, fun _ => 0, false⟩

/-- One step of `handle_client` (webcam_server.py lines 21-29). On
connect, `connected_clients.add(websocket)` runs and the handler
suspends in `wait_closed`. On a close signal, if the handler is still
suspended, `wait_closed` returns and the `finally` block runs
`connected_clients.remove(websocket)` exactly once; a close signal for a
handler that is not suspended (duplicate close, or a connection that
never existed) is absorbed by the library and runs no cleanup. -/
def wsStep (s : WsServer) : WsEvent → WsServer
  | WsEvent.connect c =>
      { s with clients := setAdd s.clients c,
               hstate := Function.update s.hstate c HState.active }
  | WsEvent.close c =>
      if s.hstate c = HState.active then
        match setRemove s.clients c with
        | some l =>
            { s with clients := l,
                     hstate := Function.update s.hstate c HState.closed,
                     removals := Function.update s.removals c (s.removals c + 1) }
        | none =>
            { s with errored := true,
                     hstate := Function.update s.hstate c HState.closed }
      else s

/-- Run of the websocket server over a sequence of events. -/
def wsRun (es : List WsEvent) : WsServer :=
  es.foldl wsStep initWs

/-- Checks that every connect event carries a fresh connection object
(distinct live connections are distinct Python objects). Close events
are unconstrained: duplicates and strays are allowed. -/
def connectsFresh : WsServer → List WsEvent → Bool
  | _, [] => true
  | s, WsEvent.connect c :: es =>
      decide (s.hstate c = HState.fresh)
        && connectsFresh (wsStep s (WsEvent.connect c)) es
  | s, WsEvent.close c :: es => connectsFresh (wsStep s (WsEvent.close c)) es

/-- Checks that every connect is a fresh connection object and every
close signal targets a currently connected client — the discipline of
claim C6, where each disconnect matches an earlier connect. -/
def matchedTrace : WsServer → List WsEvent → Bool
  | _, [] => true
  | s, WsEvent.connect c :: es =>
      decide (s.hstate c = HState.fresh)
        && matchedTrace (wsStep s (WsEvent.connect c)) es
  | s, WsEvent.close c :: es =>
      decide (s.hstate c = HState.active)
        && matchedTrace (wsStep s (WsEvent.close c)) es

/-- Number of connect events in a trace. -/
def countConnects : List WsEvent → Nat
  | [] => 0
  | WsEvent.connect _ :: es => countConnects es + 1
  | WsEvent.close _ :: es => countConnects es

/-- Number of close events in a trace. -/
def countCloses : List WsEvent → Nat
  | [] => 0
  | WsEvent.connect _ :: es => countCloses es
  | WsEvent.close _ :: es => countCloses es + 1

/-- Invariant tying the client set to the handler states: no removal has
ever raised, the set has no duplicates, membership is exactly the
handlers suspended in `wait_closed`, and each client's cleanup has run
exactly once if its handler closed and never otherwise. -/
def WsInv (s : WsServer) : Prop :=
  s.errored = false
  ∧ s.clients.Nodup
  ∧ (∀ c, c ∈ s.clients ↔ s.hstate c = HState.active)
  ∧ (∀ c, s.removals c = if s.hstate c = HState.closed then 1 else 0)

theorem wsInv_init : WsInv initWs := by
  refine ⟨rfl, List.nodup_nil, ?_, ?_⟩
  · intro c; simp [initWs]
  · intro c; simp [initWs]

theorem wsInv_connect (s : WsServer) (c : Nat)
    (hf : s.hstate c = HState.fresh) (h : WsInv s) :
    WsInv (wsStep s (WsEvent.connect c)) := by
  obtain ⟨he, hn, hm, hr⟩ := h
  have hcn : c ∉ s.clients := by
    intro hc
    have hca := (hm c).mp hc
    rw [hf] at hca
    exact absurd hca (by simp)
  have hadd : setAdd s.clients c = c :: s.clients := by
    simp [setAdd, hcn]
  refine ⟨he, ?_, ?_, ?_⟩
  · simpa [wsStep, hadd] using ⟨hcn, hn⟩
  · intro x
    by_cases hx : x = c
    · subst hx
      simp [wsStep, hadd, Function.update_same]
    · simp only [wsStep, hadd, List.mem_cons, Function.update_noteq hx]
      exact ⟨fun hor => (hm x).mp (hor.resolve_left hx), fun ha => Or.inr ((hm x).mpr ha)⟩
  · intro x
    by_cases hx : x = c
    · subst hx
      have : s.removals x = 0 := by rw [hr x, hf]; simp
      simp [wsStep, Function.update_same, this]
    · simp [wsStep, Function.update_noteq hx, hr x]

theorem wsInv_close (s : WsServer) (c : Nat) (h : WsInv s) :
    WsInv (wsStep s (WsEvent.close c)) := by
  obtain ⟨he, hn, hm, hr⟩ := h
  by_cases ha : s.hstate c = HState.active
  · have hcm : c ∈ s.clients := (hm c).mpr ha
    have hrem : setRemove s.clients c = some (s.clients.erase c) := by
      simp [setRemove, hcm]
    refine ⟨?_, ?_, ?_, ?_⟩
    · simp [wsStep, ha, hrem, he]
    · simpa [wsStep, ha, hrem] using hn.erase c
    · intro x
      by_cases hx : x = c
      · subst hx
        simp [wsStep, ha, hrem, Function.update_same, hn.not_mem_erase]
      · simp only [wsStep, ha, hrem, if_pos, Function.update_noteq hx]
        simpa [List.mem_erase_of_ne hx] using hm x
    · intro x
      by_cases hx : x = c
      · subst hx
        have : s.removals x = 0 := by rw [hr x, ha]; simp
        simp [wsStep, ha, hrem, Function.update_same, this]
      · simp [wsStep, ha, hrem, Function.update_noteq hx, hr x]
  · simpa [wsStep, ha] using ⟨he, hn, hm, hr⟩

theorem wsInv_fold (es : List WsEvent) :
    ∀ s, connectsFresh s es = true → WsInv s → WsInv (es.foldl wsStep s) := by
  induction es with
  | nil => intro s _ h; exact h
  | cons e es ih =>
    intro s hv h
    cases e with
    | connect c =>
      simp only [connectsFresh, Bool.and_eq_true, decide_eq_true_eq] at hv
      exact ih _ hv.2 (wsInv_connect s c hv.1 h)
    | close c =>
      simp only [connectsFresh] at hv
      exact ih _ hv (wsInv_close s c h)

theorem matchedTrace_connectsFresh (es : List WsEvent) :
    ∀ s, matchedTrace s es = true → connectsFresh s es = true := by
  induction es with
  | nil => intro s _; rfl
  | cons e es ih =>
    intro s hv
    cases e with
    | connect c =>
      simp only [matchedTrace, Bool.and_eq_true] at hv
      simp only [connectsFresh, Bool.and_eq_true]
      exact ⟨hv.1, ih _ hv.2⟩
    | close c =>
      simp only [matchedTrace, Bool.and_eq_true] at hv
      simp only [connectsFresh]
      exact ih _ hv.2

theorem wsCount_fold (es : List WsEvent) :
    ∀ s, matchedTrace s es = true → WsInv s →
      (es.foldl wsStep s).clients.length + countCloses es
        = s.clients.length + countConnects es := by
  induction es with
  | nil => intro s _ _; simp [countConnects, countCloses]
  | cons e es ih =>
    intro s hv hinv
    cases e with
    | connect c =>
      simp only [matchedTrace, Bool.and_eq_true, decide_eq_true_eq] at hv
      have hcn : c ∉ s.clients := by
        intro hc
        have := (hinv.2.2.1 c).mp hc
        rw [hv.1] at this
        exact absurd this (by simp)
      have hlen : (wsStep s (WsEvent.connect c)).clients.length
          = s.clients.length + 1 := by
        simp [wsStep, setAdd, hcn]
      have := ih _ hv.2 (wsInv_connect s c hv.1 hinv)
      simp only [List.foldl_cons, countConnects, countCloses] at this ⊢
      omega
    | close c =>
      simp only [matchedTrace, Bool.and_eq_true, decide_eq_true_eq] at hv
      have hcm : c ∈ s.clients := (hinv.2.2.1 c).mpr hv.1
      have hrem : setRemove s.clients c = some (s.clients.erase c) := by
        simp [setRemove, hcm]
      have hlen : (wsStep s (WsEvent.close c)).clients.length + 1
          = s.clients.length := by
        simp only [wsStep, hv.1, if_pos, hrem]
        exact List.length_erase_add_one hcm
      have := ih _ hv.2 (wsInv_close s c hinv)
      simp only [List.foldl_cons, countConnects, countCloses] at this ⊢
      omega

/-- Claim C6: after any interleaved sequence of M connects of fresh
connections and D close signals each matching a currently connected
client, the client set has exactly M−D members: each connect inserted
exactly that client and each disconnect removed exactly that client
once. -/
theorem c6_clientset_size (es : List WsEvent)
    (h : matchedTrace initWs es = true) :
    (wsRun es).clients.length + countCloses es = countConnects es
    ∧ (wsRun es).clients.length = countConnects es - countCloses es
    ∧ countCloses es ≤ countConnects es := by
  have := wsCount_fold es initWs h wsInv_init
  simp only [wsRun, initWs, List.length_nil, Nat.zero_add] at this ⊢
  omega

/-- Trace instantiating the client-set size theorem: two connects, then
one matching disconnect. -/
def wsTraceA : List WsEvent :=
  [WsEvent.connect 1, WsEvent.connect 2, WsEvent.close 1]

theorem c6_clientset_size_witness :
    matchedTrace initWs wsTraceA = true
    ∧ (wsRun wsTraceA).clients.length + countCloses wsTraceA
        = countConnects wsTraceA :=
  ⟨by decide, (c6_clientset_size wsTraceA (by decide)).1⟩

/-- Claim C8: under any interleaved sequence of fresh connects and
arbitrary close signals — duplicate close signals for the same client
allowed — no `set.remove` call ever raises, each closed client's cleanup
ran exactly once, no client's cleanup runs more than once, and the
client set holds no duplicate entry and no stale entry (its members are
exactly the clients whose handler is still connected). -/
theorem c8_disconnect_idempotent (es : List WsEvent)
    (h : connectsFresh initWs es = true) :
    (wsRun es).errored = false
    ∧ (wsRun es).clients.Nodup
    ∧ (∀ c, c ∈ (wsRun es).clients ↔ (wsRun es).hstate c = HState.active)
    ∧ (∀ c, (wsRun es).removals c ≤ 1)
    ∧ (∀ c, (wsRun es).hstate c = HState.closed → (wsRun es).removals c = 1) := by
  simp only [wsRun]
  obtain ⟨he, hn, hm, hr⟩ := wsInv_fold es initWs h wsInv_init
  refine ⟨he, hn, hm, ?_, ?_⟩
  · intro c
    rw [hr c]
    by_cases hc : (es.foldl wsStep initWs).hstate c = HState.closed <;> simp [hc]
  · intro c hc
    rw [hr c, if_pos hc]

/-- Trace instantiating the idempotent-disconnect theorem: one connect
followed by a matching close and a duplicate close signal. -/
def wsTraceB : List WsEvent :=
  [WsEvent.connect 7, WsEvent.close 7, WsEvent.close 7]

theorem c8_disconnect_idempotent_witness :
    connectsFresh initWs wsTraceB = true
    ∧ (wsRun wsTraceB).errored = false
    ∧ (wsRun wsTraceB).removals 7 = 1 :=
  ⟨by decide, (c8_disconnect_idempotent wsTraceB (by decide)).1,
    (c8_disconnect_idempotent wsTraceB (by decide)).2.2.2.2 7 (by decide)⟩
